import Mathlib

/-!
Verification of the run bootstrap orchestration in src/sae/__main__.py.

The pure parts of the orchestration (rank detection, precision selection,
console gating, sharding, trainer handoff) are embedded as executable Lean
definitions; external collaborators (model loader, dataset loader, the shard
method of the tokenized dataset, stream redirection) are modelled from the
contracts the spec states for them, each marked in its doc comment.
-/

/-- PrecisionChoice: the value of the dtype variable selected at lines 49 to 54
of src/sae/__main__.py: torch.float16, torch.bfloat16, or the string auto. -/
inductive PrecisionChoice
  | float16
  | bfloat16
  | auto
  deriving DecidableEq

/-- Concrete torch dtypes a loaded model can carry as its effective dtype. -/
inductive TorchDtype
  | float16
  | bfloat16
  | float32
  deriving DecidableEq

/-- RunConfig from src/sae/__main__.py lines 15 to 33: model, dataset, split and
ctx_len with their declared defaults, plus the inherited base-trainer fields the
core reads (the quantization flag load_in_8bit and the credential hf_token). -/
structure RunConfig where
  model : String := "EleutherAI/pythia-160m"
  dataset : String := "togethercomputer/RedPajama-Data-1T-Sample"
  split : String := "train"
  ctx_len : Int := 2048
  load_in_8bit : Bool := false
  hf_token : Option String := none
  deriving DecidableEq

/-- Fatal configuration failures of the bootstrap: a LOCAL_RANK string that the
Python int constructor rejects, or an argument string that fails the type
conversion its field declares. -/
inductive ConfigError
  | invalidRank
  | malformedField
  deriving DecidableEq

/-- Decimal value of an ASCII digit character. -/
def digitVal (c : Char) : Nat := c.toNat - 48

/-- Digit run of the Python int constructor: after an accumulated value, reads
further digits, allowing a single underscore between two digits, and rejects a
trailing underscore or a doubled underscore, as Python does. -/
def pyDigits : Nat → List Char → Option Nat
  | acc, [] => some acc
  | acc, c :: cs =>
    if c.isDigit then pyDigits (10 * acc + digitVal c) cs
    else if c = '_' then
      match cs with
      | [] => none
      | d :: cs2 => if d.isDigit then pyDigits (10 * acc + digitVal d) cs2 else none
    else none

/-- Nonempty digit run that must start with a digit, not an underscore. -/
def pyNat : List Char → Option Nat
  | [] => none
  | c :: cs => if c.isDigit then pyDigits (digitVal c) cs else none

/-- Leading and trailing whitespace removed, as Python int does before parsing. -/
def stripEnds (l : List Char) : List Char :=
  ((l.dropWhile Char.isWhitespace).reverse.dropWhile Char.isWhitespace).reverse

/-- Model of the Python builtin int on ASCII strings, as called at line 39 of
src/sae/__main__.py: optional surrounding whitespace, an optional sign, then a
nonempty digit run with single underscores permitted between digits. Returns
none where Python raises ValueError. -/
def pyInt (s : String) : Option Int :=
  match stripEnds s.data with
  | '-' :: rest => (pyNat rest).map (fun n => -(n : Int))
  | '+' :: rest => (pyNat rest).map (fun n => (n : Int))
  | l => (pyNat l).map (fun n => (n : Int))

/-- RunTopology: what lines 37 to 39 of src/sae/__main__.py derive from the
environment, together with the world size the process group reports when
distributed (the spec fixes world_size to one for a single-process run). -/
structure RunTopology where
  is_distributed : Bool
  rank : Int
  world_size : Nat
  deriving DecidableEq

/-- Topology Detector, lines 37 to 39 of src/sae/__main__.py: LOCAL_RANK absent
means a single-process run with rank zero; present means distributed with the
rank produced by the Python int constructor, whose failure is fatal. -/
def detectTopology (local_rank : Option String) (dist_world_size : Nat) :
    Except ConfigError RunTopology :=
  match local_rank with
  | none => .ok ⟨false, 0, 1⟩
  | some s =>
    match pyInt s with
    | some r => .ok ⟨true, r, dist_world_size⟩
    | none => .error .invalidRank

/-- Precision Selector, lines 49 to 54 of src/sae/__main__.py: float16 under
8-bit quantization, else bfloat16 when the hardware supports it, else auto. -/
def selectDtype (load_in_8bit : Bool) (bf16_supported : Bool) : PrecisionChoice :=
  if load_in_8bit then .float16
  else if bf16_supported then .bfloat16
  else .auto

/-- ModelHandle: the loaded model, recording the device it was placed on, the
quantization policy it was loaded under, and the effective dtype it carries. -/
structure ModelHandle where
  device_rank : Int
  quantized_8bit : Bool
  dtype : TorchDtype
  deriving DecidableEq

/-- Modelled from the spec: the Model and Tokenizer Acquirer (section 4.5, the
call at lines 56 to 63 of src/sae/__main__.py) is an external collaborator that
returns a handle bound to the requested device whose effective dtype is the
requested concrete dtype when one is given, and a platform-determined default
when the request is auto. -/
def loadModel (rank : Int) (load_in_8bit : Bool) (requested : PrecisionChoice)
    (platform_dtype : TorchDtype) : ModelHandle :=
  { device_rank := rank
    quantized_8bit := load_in_8bit
    dtype :=
      match requested with
      | .float16 => .float16
      | .bfloat16 => .bfloat16
      | .auto => platform_dtype }

/-- Arguments the core passes to load_dataset at lines 65 to 70 of
src/sae/__main__.py: the configured dataset path and split, and the
trust_remote_code flag, which the source fixes to the literal True. -/
structure DatasetRequest where
  path : String
  split : String
  trust_remote_code : Bool
  deriving DecidableEq

/-- Dataset load request assembled by the core, lines 65 to 70 of
src/sae/__main__.py: path and split come from the configuration and
trust_remote_code is the hard-coded literal True. -/
def loadDatasetRequest (args : RunConfig) : DatasetRequest :=
  { path := args.dataset
    split := args.split
    trust_remote_code := true }

/-- Externally supplied argument strings the Configuration Resolver overlays on
the declared defaults; none means the argument was not supplied. -/
structure RawArgs where
  model : Option String := none
  dataset : Option String := none
  split : Option String := none
  ctx_len : Option String := none
  load_in_8bit : Bool := false
  hf_token : Option String := none

/-- Configuration Resolver, the parse call at line 48 of src/sae/__main__.py
over the schema of lines 15 to 33: supplied strings overlay declared defaults;
string fields convert trivially and ctx_len converts through the Python int
constructor, whose failure is a fatal type error. The schema declares ctx_len
as a plain int, so the conversion is the only validation performed. -/
def resolveConfig (a : RawArgs) : Except ConfigError RunConfig :=
  match a.ctx_len with
  | none =>
    .ok { model := a.model.getD "EleutherAI/pythia-160m"
          dataset := a.dataset.getD "togethercomputer/RedPajama-Data-1T-Sample"
          split := a.split.getD "train"
          ctx_len := 2048
          load_in_8bit := a.load_in_8bit
          hf_token := a.hf_token }
  | some s =>
    match pyInt s with
    | some v =>
      .ok { model := a.model.getD "EleutherAI/pythia-160m"
            dataset := a.dataset.getD "togethercomputer/RedPajama-Data-1T-Sample"
            split := a.split.getD "train"
            ctx_len := v
            load_in_8bit := a.load_in_8bit
            hf_token := a.hf_token }
    | none => .error .malformedField

/-- Original indices a rank keeps under the striped partition: those positions
below n that are congruent to the rank modulo the world size. -/
def shardIndices (n W r : Nat) : List Nat :=
  (List.range n).filter (fun i => decide (i % W = r))

/-- Modelled from the spec: the shard method invoked at line 76 of
src/sae/__main__.py lives on the tokenized dataset produced by
chunk_and_tokenize in the sae.data module, which is not part of the visible
source; section 4.6 specifies a deterministic index-based partition into
world_size shards of which the rank keeps its own. This models the striping
scheme: rank r keeps the elements whose original index is congruent to r
modulo W, in increasing index order. -/
def shard {α : Type} (xs : List α) (W r : Nat) : List α :=
  (shardIndices xs.length W r).filterMap (fun i => xs[i]?)

/-- Shard selection with the rank as the parsed integer: the spec constrains
ranks to be non-negative; a negative rank, outside the specified domain,
selects nothing. -/
def shardInt {α : Type} (xs : List α) (W : Nat) (r : Int) : List α :=
  if r < 0 then [] else shard xs W r.toNat

/-- Environment a single process observes: the LOCAL_RANK variable, the world
size the process group would report, the bf16 capability probe, the resolved
configuration, the platform default dtype, and the tokenized dataset the
chunk_and_tokenize collaborator produces (its elements stand in as opaque
tokens). -/
structure Env where
  local_rank : Option String
  world_size : Nat
  bf16_supported : Bool
  args : RunConfig
  platform_dtype : TorchDtype
  tokenized : List Nat

/-- Console lines the orchestration can emit, as structured events: the DDP
world-size announcement of line 46, the training-on line of line 80, and the
storing-weights line of line 81 of src/sae/__main__.py, the last carrying the
dtype it reports. -/
inductive ConsoleLine
  | usingDDP (world_size : Nat)
  | trainingOn (dataset split : String)
  | storingWeights (dtype : TorchDtype)
  deriving DecidableEq

/-- Modelled from the spec: the Output Gate of line 79 of src/sae/__main__.py,
nullcontext on rank zero and redirect_stdout to None elsewhere. Applied to the
output and result of the wrapped block, it passes the output through on rank
zero, discards it on every other rank, and leaves the result of the block,
normal or exceptional, untouched. -/
def outputGate {α : Type} (rank : Int) (out : List ConsoleLine) (res : α) :
    List ConsoleLine × α :=
  (if rank = 0 then out else [], res)

/-- Console content of a scope wrapped by the gate followed by output emitted
after the scope has exited: the gate governs only the wrapped scope. -/
def emitWithGate (rank : Int) (inScope afterScope : List ConsoleLine) :
    List ConsoleLine :=
  (outputGate rank inScope ()).1 ++ afterScope

/-- Trainer Handoff record, lines 83 to 84 of src/sae/__main__.py: the
configuration and data the trainer is constructed with and how many times fit
is invoked. -/
structure TrainerCall where
  cfg : RunConfig
  data : List Nat
  fitCalls : Nat
  deriving DecidableEq

/-- Observable outcome of one process running the bootstrap: the console lines
it actually emitted, the model handle it loaded, the dataset request it issued,
and the trainer handoff it performed. -/
structure RunResult where
  console : List ConsoleLine
  model : ModelHandle
  datasetReq : DatasetRequest
  trainer : TrainerCall
  deriving DecidableEq

/-- The run function of src/sae/__main__.py lines 36 to 84, for one process:
detect the topology (fatal on an unparseable LOCAL_RANK, before any model or
dataset access), announce the world size on rank zero of a distributed run,
select the precision, load the model, issue the dataset request, shard the
tokenized data when distributed, and inside the output gate print the two
status lines and hand off to the trainer exactly once. -/
def run (env : Env) : Except ConfigError RunResult :=
  match detectTopology env.local_rank env.world_size with
  | .error e => .error e
  | .ok topo =>
    let preGate : List ConsoleLine :=
      if topo.is_distributed then
        if topo.rank = 0 then [ConsoleLine.usingDDP topo.world_size] else []
      else []
    let args := env.args
    let dtype := selectDtype args.load_in_8bit env.bf16_supported
    let mdl := loadModel topo.rank args.load_in_8bit dtype env.platform_dtype
    let req := loadDatasetRequest args
    let tokenized :=
      if topo.is_distributed then shardInt env.tokenized topo.world_size topo.rank
      else env.tokenized
    let body := outputGate topo.rank
      [ConsoleLine.trainingOn args.dataset args.split,
       ConsoleLine.storingWeights mdl.dtype]
      ({ cfg := args, data := tokenized, fitCalls := 1 } : TrainerCall)
    .ok { console := preGate ++ body.1
          model := mdl
          datasetReq := req
          trainer := body.2 }

/-- Whether the bootstrap completed without a configuration error. -/
def runOk (env : Env) : Bool :=
  match run env with
  | .ok _ => true
  | .error _ => false

/-- Number of fit invocations the bootstrap performed. -/
def fitCallsOf (env : Env) : Nat :=
  match run env with
  | .ok res => res.trainer.fitCalls
  | .error _ => 0

/-- Data handed to the trainer by the bootstrap. -/
def trainerDataOf (env : Env) : List Nat :=
  match run env with
  | .ok res => res.trainer.data
  | .error _ => []

/-- Console lines the bootstrap emitted. -/
def consoleOf (env : Env) : List ConsoleLine :=
  match run env with
  | .ok res => res.console
  | .error _ => []

/-- Effective dtype of the model handle the bootstrap loaded. -/
def modelDtypeOf (env : Env) : TorchDtype :=
  match run env with
  | .ok res => res.model.dtype
  | .error _ => TorchDtype.float32

theorem mem_shardIndices {n W r i : Nat} :
    i ∈ shardIndices n W r ↔ i < n ∧ i % W = r := by
  simp [shardIndices, List.mem_filter, List.mem_range]

theorem shardIndices_succ (n W r : Nat) :
    shardIndices (n + 1) W r
      = shardIndices n W r ++ if n % W = r then [n] else [] := by
  unfold shardIndices
  rw [List.range_succ, List.filter_append]
  congr 1
  by_cases h : n % W = r
  · simp [h]
  · simp [h]

theorem length_shardIndices (n W r : Nat) (hW : 0 < W) (hr : r < W) :
    (shardIndices n W r).length = n / W + if r < n % W then 1 else 0 := by
  induction n with
  | zero => simp [shardIndices]
  | succ n ih =>
    rw [shardIndices_succ, List.length_append, ih]
    have hlen : (if n % W = r then [n] else ([] : List Nat)).length
        = if n % W = r then 1 else 0 := by
      split <;> rfl
    rw [hlen]
    have hmod : n % W < W := Nat.mod_lt _ hW
    have hdm := Nat.div_add_mod n W
    by_cases htop : n % W + 1 = W
    · have e1 : n + 1 = W * (n / W + 1) := by rw [Nat.mul_succ]; omega
      have ed : (n + 1) / W = n / W + 1 := by rw [e1, Nat.mul_div_cancel_left _ hW]
      have em : (n + 1) % W = 0 := by rw [e1]; exact Nat.mul_mod_right W _
      rw [ed, em]
      split_ifs <;> omega
    · have hlt : n % W + 1 < W := by omega
      have hu : (n + 1) / W = n / W ∧ (n + 1) % W = n % W + 1 :=
        (Nat.div_mod_unique hW).mpr ⟨by omega, hlt⟩
      rw [hu.1, hu.2]
      split_ifs <;> omega

theorem length_filterMap_getElem {α : Type} (xs : List α) :
    ∀ l : List Nat, (∀ i ∈ l, i < xs.length) →
      (l.filterMap (fun i => xs[i]?)).length = l.length := by
  intro l
  induction l with
  | nil => intro _; rfl
  | cons a t ih =>
    intro h
    have ha : a < xs.length := h a (by simp)
    rw [List.filterMap_cons, List.getElem?_eq_getElem ha]
    simp only [List.length_cons]
    rw [ih (fun i hi => h i (by simp [hi]))]

theorem length_shard {α : Type} (xs : List α) (W r : Nat) :
    (shard xs W r).length = (shardIndices xs.length W r).length := by
  unfold shard
  exact length_filterMap_getElem xs _ (fun i hi => (mem_shardIndices.mp hi).1)

theorem shard_eq_nil_of_le {α : Type} (xs : List α) (W r : Nat)
    (h : xs.length ≤ r) : shard xs W r = [] := by
  have hidx : shardIndices xs.length W r = [] := by
    unfold shardIndices
    rw [List.filter_eq_nil_iff]
    intro i hi
    rw [List.mem_range] at hi
    have := Nat.mod_le i W
    simp only [decide_eq_true_eq]
    omega
  unfold shard
  rw [hidx]
  rfl

/-- C1: for every TokenizedDataset of size N and every world size W with
1 <= W <= N, the striped shards are pairwise disjoint and cover every element
exactly once (each index lies in exactly one of the W shards), shard sizes
differ by at most one, and for N = 10 and W = 4 rank 0 holds exactly 3
elements and ranks 1 to 3 together hold the remaining 7. -/
theorem C1_shard_partition (xs : List Nat) (W : Nat) (h1 : 1 ≤ W)
    (h2 : W ≤ xs.length) :
    (∀ i, i < xs.length → ∃! r, r < W ∧ i ∈ shardIndices xs.length W r)
    ∧ (∀ r, r < W → ∀ t, t < W →
        (shard xs W r).length ≤ (shard xs W t).length + 1)
    ∧ (xs.length = 10 →
        (shard xs 4 0).length = 3
        ∧ (shard xs 4 1).length + (shard xs 4 2).length
            + (shard xs 4 3).length = 7) := by
  have hW : 0 < W := h1
  refine ⟨?_, ?_, ?_⟩
  · intro i hi
    refine ⟨i % W, ⟨Nat.mod_lt i hW, mem_shardIndices.mpr ⟨hi, rfl⟩⟩, ?_⟩
    rintro t ⟨ht, hmem⟩
    exact ((mem_shardIndices.mp hmem).2).symm
  · intro r hr t ht
    rw [length_shard, length_shard, length_shardIndices _ _ _ hW hr,
      length_shardIndices _ _ _ hW ht]
    split_ifs <;> omega
  · intro hlen
    refine ⟨?_, ?_⟩
    · rw [length_shard, hlen]; decide
    · rw [length_shard, length_shard, length_shard, hlen]; decide

theorem C1_shard_partition_witness :
    (∀ i, i < (List.range 10).length →
        ∃! r, r < 4 ∧ i ∈ shardIndices (List.range 10).length 4 r)
    ∧ (∀ r, r < 4 → ∀ t, t < 4 →
        (shard (List.range 10) 4 r).length
          ≤ (shard (List.range 10) 4 t).length + 1)
    ∧ ((List.range 10).length = 10 →
        (shard (List.range 10) 4 0).length = 3
        ∧ (shard (List.range 10) 4 1).length + (shard (List.range 10) 4 2).length
            + (shard (List.range 10) 4 3).length = 7) :=
  C1_shard_partition (List.range 10) 4 (by decide) (by decide)

/-- C2: the Precision Selector is a function of the quantization flag and the
bf16 capability alone: with the 8-bit flag set it returns float16 whatever the
bf16 support, and without the flag it returns bfloat16 on bf16-capable hardware
and auto otherwise. -/
theorem C2_precision_selector (cfg : RunConfig) (b : Bool) :
    selectDtype ({ cfg with load_in_8bit := true }).load_in_8bit b
        = PrecisionChoice.float16
    ∧ selectDtype ({ cfg with load_in_8bit := false }).load_in_8bit true
        = PrecisionChoice.bfloat16
    ∧ selectDtype ({ cfg with load_in_8bit := false }).load_in_8bit false
        = PrecisionChoice.auto :=
  ⟨rfl, rfl, rfl⟩

/-- C3: with no LOCAL_RANK signal the Topology Detector yields
is_distributed false, rank 0 and world_size 1; with a signal that parses as a
non-negative integer it yields is_distributed true with the parsed rank. -/
theorem C3_topology_detector (w : Nat) (s : String) (r : Int)
    (hs : pyInt s = some r) (hr : 0 ≤ r) :
    detectTopology none w = .ok ⟨false, 0, 1⟩
    ∧ detectTopology (some s) w = .ok ⟨true, r, w⟩ := by
  refine ⟨rfl, ?_⟩
  simp [detectTopology, hs]

theorem C3_topology_detector_witness :
    pyInt "3" = some 3
    ∧ (detectTopology none 5 = .ok ⟨false, 0, 1⟩
        ∧ detectTopology (some "3") 5 = .ok ⟨true, 3, 5⟩) :=
  ⟨by decide, C3_topology_detector 5 "3" 3 (by decide) (by decide)⟩

/-- C4 counterexample: the string for minus one is not a non-negative integer,
yet the rank parse of line 39 accepts it, the detector reports rank minus one
with no error, and the whole bootstrap proceeds without any
ConfigurationError. -/
theorem C4_negative_rank_accepted :
    pyInt "-1" = some (-1)
    ∧ detectTopology (some "-1") 2 = .ok ⟨true, -1, 2⟩
    ∧ runOk { local_rank := some "-1", world_size := 2, bf16_supported := true,
              args := {}, platform_dtype := TorchDtype.float32,
              tokenized := [0, 1, 2] } = true :=
  ⟨by decide, rfl, rfl⟩

/-- C4 (amended): a present LOCAL_RANK is parsed as a Python integer, sign
permitted; any string the integer parse rejects raises a fatal configuration
error before any model or dataset access occurs (run yields no RunResult, so
no model handle and no dataset request is ever produced), with no recovery. -/
theorem C4_unparseable_rank_fatal (env : Env) (s : String)
    (h1 : env.local_rank = some s) (h2 : pyInt s = none) :
    run env = .error ConfigError.invalidRank := by
  simp [run, detectTopology, h1, h2]

theorem C4_unparseable_rank_fatal_witness :
    pyInt "abc" = none
    ∧ run { local_rank := some "abc", world_size := 1, bf16_supported := false,
            args := {}, platform_dtype := TorchDtype.float32, tokenized := [] }
        = .error ConfigError.invalidRank :=
  ⟨by decide,
    C4_unparseable_rank_fatal
      { local_rank := some "abc", world_size := 1, bf16_supported := false,
        args := {}, platform_dtype := TorchDtype.float32, tokenized := [] }
      "abc" rfl (by decide)⟩

theorem run_ok_of_parse (env : Env) (s : String) (r : Int)
    (h1 : env.local_rank = some s) (h2 : pyInt s = some r) :
    run env = Except.ok
      { console :=
          (if r = 0 then [ConsoleLine.usingDDP env.world_size] else [])
            ++ (if r = 0 then
                  [ConsoleLine.trainingOn env.args.dataset env.args.split,
                   ConsoleLine.storingWeights
                     (loadModel r env.args.load_in_8bit
                       (selectDtype env.args.load_in_8bit env.bf16_supported)
                       env.platform_dtype).dtype]
                else [])
        model := loadModel r env.args.load_in_8bit
          (selectDtype env.args.load_in_8bit env.bf16_supported)
          env.platform_dtype
        datasetReq := loadDatasetRequest env.args
        trainer := { cfg := env.args,
                     data := shardInt env.tokenized env.world_size r,
                     fitCalls := 1 } } := by
  simp [run, detectTopology, outputGate, h1, h2]

theorem run_ok_of_none (env : Env) (h1 : env.local_rank = none) :
    run env = Except.ok
      { console :=
          [ConsoleLine.trainingOn env.args.dataset env.args.split,
           ConsoleLine.storingWeights
             (loadModel 0 env.args.load_in_8bit
               (selectDtype env.args.load_in_8bit env.bf16_supported)
               env.platform_dtype).dtype]
        model := loadModel 0 env.args.load_in_8bit
          (selectDtype env.args.load_in_8bit env.bf16_supported)
          env.platform_dtype
        datasetReq := loadDatasetRequest env.args
        trainer := { cfg := env.args,
                     data := env.tokenized,
                     fitCalls := 1 } } := by
  simp [run, detectTopology, outputGate, h1]

/-- C5: on rank 0 the console carries, in order, the world-size announcement
(only when distributed), the training-on line, then the storing-weights line
reporting the effective dtype of the loaded ModelHandle, which under 8-bit
quantization is float16; ranks other than 0 emit nothing. -/
theorem C5_console_output (env : Env) :
    (env.local_rank = none →
        consoleOf env
          = [ConsoleLine.trainingOn env.args.dataset env.args.split,
             ConsoleLine.storingWeights (modelDtypeOf env)]
        ∧ (env.args.load_in_8bit = true
            → modelDtypeOf env = TorchDtype.float16))
    ∧ (∀ s, env.local_rank = some s → pyInt s = some 0 →
        consoleOf env
          = [ConsoleLine.usingDDP env.world_size,
             ConsoleLine.trainingOn env.args.dataset env.args.split,
             ConsoleLine.storingWeights (modelDtypeOf env)]
        ∧ (env.args.load_in_8bit = true
            → modelDtypeOf env = TorchDtype.float16))
    ∧ (∀ s r, env.local_rank = some s → pyInt s = some r → r ≠ 0 →
        consoleOf env = []) := by
  refine ⟨?_, ?_, ?_⟩
  · intro h1
    rw [consoleOf, modelDtypeOf, run_ok_of_none env h1]
    refine ⟨rfl, ?_⟩
    intro hq
    simp [loadModel, selectDtype, hq]
  · intro s h1 h2
    rw [consoleOf, modelDtypeOf, run_ok_of_parse env s 0 h1 h2]
    refine ⟨by simp, ?_⟩
    intro hq
    simp [loadModel, selectDtype, hq]
  · intro s r h1 h2 hr
    rw [consoleOf, run_ok_of_parse env s r h1 h2]
    simp [hr]

/-- Concrete distributed rank-0 environment with quantization on, used to
instantiate the console-output theorem. -/
def envC5 : Env :=
  { local_rank := some "0", world_size := 4, bf16_supported := true,
    args := { load_in_8bit := true }, platform_dtype := TorchDtype.float32,
    tokenized := [0, 1, 2, 3, 4] }

theorem C5_console_output_witness :
    consoleOf envC5
        = [ConsoleLine.usingDDP 4,
           ConsoleLine.trainingOn envC5.args.dataset envC5.args.split,
           ConsoleLine.storingWeights (modelDtypeOf envC5)]
    ∧ modelDtypeOf envC5 = TorchDtype.float16 :=
  ⟨((C5_console_output envC5).2.1 "0" rfl (by decide)).1,
   ((C5_console_output envC5).2.1 "0" rfl (by decide)).2 rfl⟩

/-- C6: within the scope of the Output Gate, rank 0 output passes through
unchanged and the block result is untouched; on every other rank the in-scope
output is discarded while the block result, exceptional or not, still
propagates unchanged; and output emitted after the scope has exited is
unaffected on every rank, so the suppression is lifted with the scope. -/
theorem C6_output_gate (rank : Int) (out : List ConsoleLine)
    (res : Except String Unit) (hne : rank ≠ 0) :
    outputGate 0 out res = (out, res)
    ∧ (outputGate rank out res).1 = []
    ∧ (outputGate rank out res).2 = res
    ∧ (∀ afterScope, emitWithGate rank out afterScope = afterScope) := by
  refine ⟨by simp [outputGate], by simp [outputGate, hne], rfl, ?_⟩
  intro afterScope
  simp [emitWithGate, outputGate, hne]

theorem C6_output_gate_witness :
    outputGate 0 [ConsoleLine.usingDDP 2] (Except.error "boom" : Except String Unit)
        = ([ConsoleLine.usingDDP 2], Except.error "boom")
    ∧ (outputGate 1 [ConsoleLine.usingDDP 2]
        (Except.error "boom" : Except String Unit)).1 = []
    ∧ (outputGate 1 [ConsoleLine.usingDDP 2]
        (Except.error "boom" : Except String Unit)).2 = Except.error "boom"
    ∧ (∀ afterScope, emitWithGate 1 [ConsoleLine.usingDDP 2] afterScope
        = afterScope) :=
  C6_output_gate 1 [ConsoleLine.usingDDP 2] (Except.error "boom") (by decide)

/-- C7 counterexample: supplying the ctx_len argument as minus five passes
resolution with no ConfigurationError; the resolver returns a complete
RunConfig carrying the non-positive ctx_len value, so no range validation
occurs. -/
theorem C7_negative_ctx_len_accepted :
    resolveConfig { ctx_len := some "-5" }
      = .ok { model := "EleutherAI/pythia-160m",
              dataset := "togethercomputer/RedPajama-Data-1T-Sample",
              split := "train", ctx_len := -5, load_in_8bit := false,
              hf_token := none } := by
  rfl

/-- C7 (amended): the Configuration Resolver fails fatally exactly when a
supplied field fails type validation, in particular when the ctx_len argument
is not an integer string, surfacing the ConfigurationError immediately with no
partial RunConfig exposed; it performs no range validation, so every integer
ctx_len value, non-positive ones included, is accepted into the resolved
configuration. -/
theorem C7_resolver_type_validation (a : RawArgs) (s : String)
    (h1 : a.ctx_len = some s) :
    (pyInt s = none → resolveConfig a = .error ConfigError.malformedField)
    ∧ (∀ v : Int, pyInt s = some v →
        resolveConfig a
          = .ok { model := a.model.getD "EleutherAI/pythia-160m",
                  dataset := a.dataset.getD
                    "togethercomputer/RedPajama-Data-1T-Sample",
                  split := a.split.getD "train", ctx_len := v,
                  load_in_8bit := a.load_in_8bit, hf_token := a.hf_token }) := by
  constructor
  · intro h2
    simp [resolveConfig, h1, h2]
  · intro v h2
    simp [resolveConfig, h1, h2]

theorem C7_resolver_type_validation_witness :
    pyInt "abc" = none
    ∧ resolveConfig { ctx_len := some "abc" }
        = .error ConfigError.malformedField :=
  ⟨by decide,
    (C7_resolver_type_validation { ctx_len := some "abc" } "abc" rfl).1 (by decide)⟩

/-- First of two run configurations differing in every field. -/
def cfgC8a : RunConfig :=
  { model := "m1", dataset := "d1", split := "s1", ctx_len := 1,
    load_in_8bit := false, hf_token := none }

/-- Second of two run configurations differing in every field. -/
def cfgC8b : RunConfig :=
  { model := "m2", dataset := "d2", split := "s2", ctx_len := 2,
    load_in_8bit := true, hf_token := some "t" }

/-- C8 counterexample: two configurations that differ in every field, the
quantization flag and credential included, issue dataset requests with the
same trust_remote_code value, namely the hard-coded true of line 69 of
src/sae/__main__.py; no configuration value determines it. -/
theorem C8_trust_not_configurable :
    (loadDatasetRequest cfgC8a).trust_remote_code = true
    ∧ (loadDatasetRequest cfgC8b).trust_remote_code = true :=
  ⟨rfl, rfl⟩

/-- C8 (amended): whether trust-sensitive remote code execution is permitted
during dataset loading is fixed by the core: the request carries
trust_remote_code true for every run configuration, rather than being
determined by any configuration value. -/
theorem C8_trust_hardcoded (cfg : RunConfig) :
    (loadDatasetRequest cfg).trust_remote_code = true :=
  rfl

/-- C10: when the world size exceeds the tokenized dataset size, sharding
raises no error: the bootstrap completes, the trainer is constructed and fit
is invoked exactly once on every rank, and a rank at least as large as the
dataset size receives an empty shard. -/
theorem C10_oversized_world (env : Env) (s : String) (r : Nat)
    (h1 : env.local_rank = some s) (h2 : pyInt s = some (r : Int))
    (hW : env.tokenized.length < env.world_size) :
    runOk env = true
    ∧ fitCallsOf env = 1
    ∧ (env.tokenized.length ≤ r → trainerDataOf env = []) := by
  have hrun := run_ok_of_parse env s (r : Int) h1 h2
  refine ⟨?_, ?_, ?_⟩
  · rw [runOk, hrun]
  · rw [fitCallsOf, hrun]
  · intro hle
    rw [trainerDataOf, hrun]
    show shardInt env.tokenized env.world_size (r : Int) = []
    rw [shardInt]
    simp only [Int.toNat_natCast]
    rw [if_neg (by omega), shard_eq_nil_of_le env.tokenized env.world_size r hle]

/-- Concrete environment whose world size of seven exceeds its dataset size of
three, with rank five, used to instantiate the oversized-world theorem. -/
def envC10 : Env :=
  { local_rank := some "5", world_size := 7, bf16_supported := false,
    args := {}, platform_dtype := TorchDtype.float32, tokenized := [3, 1, 2] }

theorem C10_oversized_world_witness :
    runOk envC10 = true
    ∧ fitCallsOf envC10 = 1
    ∧ (envC10.tokenized.length ≤ 5 → trainerDataOf envC10 = []) :=
  C10_oversized_world envC10 "5" 5 rfl (by decide) (by decide)
